import Mathlib

/-!
Verification of the IMA API client (`src/ima_client.py`) of
tencent-ima-copilot-mcp: a shallow embedding of the client's pure logic
(token expiry, token refresh, cookie credential extraction, request-header
construction, SSE line parsing, stream processing with whole-body fallback,
and the retry orchestrator), with theorems checking the specification's
claims against it.

Modelling conventions:
* Python strings are Lean `String`s; `datetime` instants are `Int` seconds.
* Network I/O is an oracle argument (`HTTPResult`, attempt-outcome
  functions); "never raises" is rendered as totality of the model, and a
  Python exception escaping a function is an explicit `Except`/`Bool` flag.
* JSON is modelled by the `Json` inductive below with integer numbers only
  (the payloads relevant to the claims contain no floats); `json.loads` is
  the fuel-based `jparse`, which accepts exactly the JSON fragment needed
  here (objects, arrays, strings with escapes, integers, literals).
* pydantic validation of typed message models is modelled by explicit
  shape checks; a validation failure is an `Except.error` (pydantic's
  `ValidationError` is a `ValueError`, caught alongside JSON errors in the
  source).
-/

/-! ## JSON values (model of Python's parsed JSON) -/

inductive Json where
  | null : Json
  | bool (b : Bool) : Json
  | num (n : Int) : Json
  | str (s : String) : Json
  | arr (elems : List Json) : Json
  | obj (fields : List (String × Json)) : Json

/-- Python truthiness of a parsed-JSON value (`if value:`). -/
def Json.truthy : Json → Bool
  | .null => false
  | .bool b => b
  | .num n => n != 0
  | .str s => s != ""
  | .arr l => !l.isEmpty
  | .obj l => !l.isEmpty

/-- `d.get(k)` / `k in d` on a JSON object; Python keeps the last duplicate
key, hence the `reverse`. Non-objects have no keys. -/
def jgetKey (j : Json) (k : String) : Option Json :=
  match j with
  | .obj kvs => kvs.reverse.lookup k
  | _ => none

def lbrace : Char := Char.ofNat 123
def rbrace : Char := Char.ofNat 125

def isJsonWs (c : Char) : Bool :=
  c = ' ' || c = '\t' || c = '\n' || c = '\r'

def skipJsonWs (cs : List Char) : List Char := cs.dropWhile isJsonWs

def hexVal (c : Char) : Option Nat :=
  if '0' ≤ c ∧ c ≤ '9' then some (c.toNat - '0'.toNat)
  else if 'a' ≤ c ∧ c ≤ 'f' then some (c.toNat - 'a'.toNat + 10)
  else if 'A' ≤ c ∧ c ≤ 'F' then some (c.toNat - 'A'.toNat + 10)
  else none

/-- Body of a JSON string, after the opening quote. -/
def parseJStringAux (fuel : Nat) (cs : List Char) (acc : List Char) :
    Option (String × List Char) :=
  match fuel with
  | 0 => none
  | fuel + 1 =>
    match cs with
    | [] => none
    | '"' :: rest => some (String.mk acc.reverse, rest)
    | '\\' :: esc :: rest =>
      if esc = '"' then parseJStringAux fuel rest ('"' :: acc)
      else if esc = '\\' then parseJStringAux fuel rest ('\\' :: acc)
      else if esc = '/' then parseJStringAux fuel rest ('/' :: acc)
      else if esc = 'b' then parseJStringAux fuel rest ('\x08' :: acc)
      else if esc = 'f' then parseJStringAux fuel rest ('\x0c' :: acc)
      else if esc = 'n' then parseJStringAux fuel rest ('\n' :: acc)
      else if esc = 'r' then parseJStringAux fuel rest ('\r' :: acc)
      else if esc = 't' then parseJStringAux fuel rest ('\t' :: acc)
      else if esc = 'u' then
        match rest with
        | h1 :: h2 :: h3 :: h4 :: rest2 =>
          match hexVal h1, hexVal h2, hexVal h3, hexVal h4 with
          | some a, some b, some c, some d =>
            parseJStringAux fuel rest2
              (Char.ofNat (4096 * a + 256 * b + 16 * c + d) :: acc)
          | _, _, _, _ => none
        | _ => none
      else none
    | c :: rest =>
      if c.toNat < 32 then none
      else parseJStringAux fuel rest (c :: acc)

def digitsToNat (ds : List Char) : Nat :=
  ds.foldl (fun n c => n * 10 + (c.toNat - '0'.toNat)) 0

/-- JSON integer literal; floats (`.`/`e`) are outside the model. -/
def parseJNum (cs : List Char) : Option (Int × List Char) :=
  let p := match cs with
    | '-' :: rest => (true, rest)
    | _ => (false, cs)
  let ds := p.2.takeWhile Char.isDigit
  let rest := p.2.drop ds.length
  if ds.isEmpty then none
  else if ds.length > 1 && ds.headD '0' = '0' then none
  else
    match rest with
    | '.' :: _ => none
    | 'e' :: _ => none
    | 'E' :: _ => none
    | _ => some ((if p.1 then -(digitsToNat ds : Int) else (digitsToNat ds : Int)), rest)

mutual

def parseJVal (fuel : Nat) (cs : List Char) : Option (Json × List Char) :=
  match fuel with
  | 0 => none
  | fuel + 1 =>
    match skipJsonWs cs with
    | [] => none
    | c :: rest =>
      if c = '"' then
        match parseJStringAux (rest.length + 1) rest [] with
        | some (s, r) => some (.str s, r)
        | none => none
      else if c = lbrace then parseJObj0 fuel rest
      else if c = '[' then parseJArr0 fuel rest
      else if ("true".toList).isPrefixOf (c :: rest) then
        some (.bool true, (c :: rest).drop 4)
      else if ("false".toList).isPrefixOf (c :: rest) then
        some (.bool false, (c :: rest).drop 5)
      else if ("null".toList).isPrefixOf (c :: rest) then
        some (.null, (c :: rest).drop 4)
      else
        match parseJNum (c :: rest) with
        | some (n, r) => some (.num n, r)
        | none => none

/-- Object body after the opening brace. -/
def parseJObj0 (fuel : Nat) (cs : List Char) : Option (Json × List Char) :=
  match fuel with
  | 0 => none
  | fuel + 1 =>
    match skipJsonWs cs with
    | [] => none
    | c :: rest =>
      if c = rbrace then some (.obj [], rest)
      else
        match parseJField fuel (c :: rest) with
        | some (kv, r) => parseJObjRest fuel r [kv]
        | none => none

def parseJField (fuel : Nat) (cs : List Char) : Option ((String × Json) × List Char) :=
  match fuel with
  | 0 => none
  | fuel + 1 =>
    match skipJsonWs cs with
    | '"' :: rest =>
      match parseJStringAux (rest.length + 1) rest [] with
      | some (k, r) =>
        match skipJsonWs r with
        | ':' :: r2 =>
          match parseJVal fuel r2 with
          | some (v, r3) => some ((k, v), r3)
          | none => none
        | _ => none
      | none => none
    | _ => none

def parseJObjRest (fuel : Nat) (cs : List Char) (acc : List (String × Json)) :
    Option (Json × List Char) :=
  match fuel with
  | 0 => none
  | fuel + 1 =>
    match skipJsonWs cs with
    | c :: rest =>
      if c = rbrace then some (.obj acc.reverse, rest)
      else if c = ',' then
        match parseJField fuel rest with
        | some (kv, r) => parseJObjRest fuel r (kv :: acc)
        | none => none
      else none
    | [] => none

/-- Array body after the opening bracket. -/
def parseJArr0 (fuel : Nat) (cs : List Char) : Option (Json × List Char) :=
  match fuel with
  | 0 => none
  | fuel + 1 =>
    match skipJsonWs cs with
    | [] => none
    | c :: rest =>
      if c = ']' then some (.arr [], rest)
      else
        match parseJVal fuel (c :: rest) with
        | some (v, r) => parseJArrRest fuel r [v]
        | none => none

def parseJArrRest (fuel : Nat) (cs : List Char) (acc : List Json) :
    Option (Json × List Char) :=
  match fuel with
  | 0 => none
  | fuel + 1 =>
    match skipJsonWs cs with
    | c :: rest =>
      if c = ']' then some (.arr acc.reverse, rest)
      else if c = ',' then
        match parseJVal fuel rest with
        | some (v, r) => parseJArrRest fuel r (v :: acc)
        | none => none
      else none
    | [] => none

end

/-- Model of `json.loads`: parse a complete JSON document; `none` is a
`JSONDecodeError`. -/
def jparse (s : String) : Option Json :=
  let cs := s.toList
  match parseJVal (4 * cs.length + 16) cs with
  | some (j, rest) => if skipJsonWs rest = [] then some j else none
  | none => none

/-! ## Python rendering helpers (`str()` of parsed JSON) -/

/-! ## Python string primitives

List-based models of the string operations the client uses
(`str.strip`, `str.split`, `str.lower`, prefix tests), kept
kernel-computable. -/

def pyStartsWith (s pre : String) : Bool :=
  pre.toList.isPrefixOf s.toList

def pyDrop (s : String) (n : Nat) : String :=
  String.mk (s.toList.drop n)

/-- `str.strip()` (ASCII whitespace). -/
def pyStrip (s : String) : String :=
  String.mk
    (((s.toList.dropWhile Char.isWhitespace).reverse.dropWhile Char.isWhitespace).reverse)

/-- `str.lower()` (ASCII). -/
def pyLower (s : String) : String :=
  String.mk (s.toList.map Char.toLower)

/-- `str.split(sep)` for a one-character separator. -/
def splitCharAux (sep : Char) : List Char → List Char → List (List Char)
  | [], acc => [acc.reverse]
  | c :: rest, acc =>
    if c = sep then acc.reverse :: splitCharAux sep rest []
    else splitCharAux sep rest (c :: acc)

def splitOnChar (sep : Char) (s : String) : List String :=
  (splitCharAux sep s.toList []).map String.mk

/-- Approximation of Python `repr` for a string: single-quoted with
backslash and quote escaping (control-character escapes elided). -/
def pyQuote (s : String) : String :=
  "\x27" ++ (s.toList.foldl (fun acc c =>
      if c = '\x27' then acc ++ "\\\x27"
      else if c = '\\' then acc ++ "\\\\"
      else acc.push c) "") ++ "\x27"

mutual

/-- `str(x)`/`repr(x)` of a parsed-JSON container, as Python prints it. -/
def pyRepr : Json → String
  | .null => "None"
  | .bool true => "True"
  | .bool false => "False"
  | .num n => toString n
  | .str s => pyQuote s
  | .arr l => "[" ++ pyReprList l ++ "]"
  | .obj kvs => "\x7b" ++ pyReprFields kvs ++ "\x7d"

def pyReprList : List Json → String
  | [] => ""
  | [x] => pyRepr x
  | x :: y :: rest => pyRepr x ++ ", " ++ pyReprList (y :: rest)

def pyReprFields : List (String × Json) → String
  | [] => ""
  | [kv] => pyQuote kv.1 ++ ": " ++ pyRepr kv.2
  | kv :: kv2 :: rest => pyQuote kv.1 ++ ": " ++ pyRepr kv.2 ++ ", " ++ pyReprFields (kv2 :: rest)

end

/-- `str(x)`: like `repr` except that strings print bare. -/
def pyStr : Json → String
  | .str s => s
  | j => pyRepr j

/-! ## Message model (`models.py`: `IMAMessage` / `TextMessage` /
`KnowledgeBaseMessage`)

One record covers the three pydantic models: `text` is `some` exactly for
`TextMessage`; the `KnowledgeBaseMessage`-only fields (`processing`,
`stage`, `medias`) are not needed by any claim and are elided. -/

inductive MsgType where
  | system
  | raw
  | text
  | knowledgeBase
deriving Repr, DecidableEq

structure Msg where
  type : MsgType
  content : String
  raw : Option String
  text : Option String
deriving Repr, DecidableEq

/-- `TextMessage(type=TEXT, content=c, text=c, raw=r)`. -/
def mkTextMsg (c r : String) : Msg := ⟨.text, c, some r, some c⟩

/-! ## `_parse_sse_message` -/

/-- First element of `json_data['msgs']` that is a dict with a truthy
`content` (the loop in format 1 of `_parse_sse_message`). -/
def firstTruthyContent : List Json → Option Json
  | [] => none
  | m :: rest =>
    match m with
    | .obj kvs =>
      match jgetKey (Json.obj kvs) "content" with
      | some c => if c.truthy then some c else firstTruthyContent rest
      | none => firstTruthyContent rest
    | _ => firstTruthyContent rest

/-- pydantic validation of `KnowledgeBaseMessage(**json_data)`, reduced to
the checks the claims can reach: the (possibly backfilled) `content` must
be a string, `processing`/`raw` must be strings and `stage` an integer
when present, and `medias`, when present, a list of dicts each carrying
the required `id`/`type`/`title` fields (remaining optional-field type
checks elided). -/
def kbFieldOk (j : Json) (k : String) (isStr : Bool) : Bool :=
  match jgetKey j k with
  | none => true
  | some .null => true
  | some (.str _) => isStr
  | some (.num _) => !isStr
  | some _ => false

def mediaOk (m : Json) : Bool :=
  match m with
  | .obj _ =>
    (match jgetKey m "id" with | some (.str _) => true | _ => false) &&
    (match jgetKey m "type" with | some (.num _) => true | _ => false) &&
    (match jgetKey m "title" with | some (.str _) => true | _ => false)
  | _ => false

def mediasOk (j : Json) : Bool :=
  match jgetKey j "medias" with
  | none => true
  | some .null => true
  | some (.arr l) => l.all mediaOk
  | some _ => false

/-- Model of `_parse_sse_message` (`ima_client.py`). `Except.error ()`
stands for the re-raised `JSONDecodeError`/`KeyError`/`ValueError`
(pydantic validation included); `Except.ok none` is a skipped line. -/
def parse_sse_message (line : String) : Except Unit (Option Msg) :=
  let dataOpt : Option String :=
    if pyStartsWith line "data: " then some (pyDrop line 6)
    else if pyStartsWith line "event: " || pyStartsWith line "id: " then none
    else some line
  match dataOpt with
  | none => .ok none
  | some data =>
    if data = "" || data = "[DONE]" || pyStrip data = "" then .ok none
    else
      match jparse data with
      | none => .error ()
      | some j =>
        -- format 1: a response carrying a list of sub-messages
        match jgetKey j "msgs" with
        | some (.arr msgs) =>
          match firstTruthyContent msgs with
          | some (.str c) => .ok (some (mkTextMsg c data))
          | some _ => .error ()   -- truthy non-string content: ValidationError
          | none => .ok none
        | _ =>
        -- format 2: a bare `content` string
        match jgetKey j "content" with
        | some (.str c) =>
          if c ≠ "" then .ok (some (mkTextMsg c data)) else
          -- fall through to format 3 (content falsy)
          match jgetKey j "Text" with
          | some (.str t) => .ok (some (mkTextMsg t data))
          | _ => parseSseLater j data
        | some _ =>
          match jgetKey j "Text" with
          | some (.str t) => .ok (some (mkTextMsg t data))
          | _ => parseSseLater j data
        | none =>
        -- format 3: a bare `Text` string
        match jgetKey j "Text" with
        | some (.str t) => .ok (some (mkTextMsg t data))
        | _ => parseSseLater j data
where
  /-- formats 4, 5 and the catch-all of `_parse_sse_message`. -/
  parseSseLater (j : Json) (data : String) : Except Unit (Option Msg) :=
    -- format 4: knowledge-base message
    match jgetKey j "type" with
    | some (.str ty) =>
      if ty = "knowledgeBase" then
        let contentVal :=
          match jgetKey j "content" with
          | some c => c
          | none =>
            match jgetKey j "processing" with
            | some p => p
            | none => .str "知识库搜索中..."
        match contentVal with
        | .str c =>
          if kbFieldOk j "processing" true && kbFieldOk j "raw" true &&
             kbFieldOk j "stage" false && mediasOk j then
            .ok (some ⟨.knowledgeBase, c, (match jgetKey j "raw" with
              | some (.str r) => some r
              | _ => none), none⟩)
          else .error ()
        | _ => .error ()
      else parseSseQa j data
    | _ => parseSseQa j data
  /-- format 5 (`question`/`answer` pair) and the raw-JSON fallback. -/
  parseSseQa (j : Json) (data : String) : Except Unit (Option Msg) :=
    match jgetKey j "question", jgetKey j "answer" with
    | some _, some a =>
      if a.truthy then
        match a with
        | .str s => .ok (some (mkTextMsg s data))
        | _ => .error ()   -- truthy non-string answer: ValidationError
      else .ok (some ⟨.system, pyRepr j, some data, none⟩)
    | _, _ => .ok (some ⟨.system, pyRepr j, some data, none⟩)

/-! ## `_extract_messages_from_response` (whole-body fallback extraction) -/

/-- One iteration of the reference-list loop in
`_extract_messages_from_response`: renders `f"{i}. {title}"` with an
optional truncated introduction. `Except.error ()` models the
`AttributeError`/`TypeError` a non-dict media or non-string truthy
introduction raises (caught by the function's outer handler). -/
def mediaLine (i : Nat) (media : Json) : Except Unit String :=
  match media with
  | .obj _ =>
    let title := (jgetKey media "title").getD (.str ("资料" ++ toString i))
    match jgetKey media "introduction" with
    | some intro =>
      if intro.truthy then
        match intro with
        | .str s =>
          let s2 := if s.length > 150 then String.mk (s.toList.take 150) ++ "..." else s
          .ok (toString i ++ ". " ++ pyStr title ++ "\n   " ++ s2 ++ "\n")
        | _ => .error ()
      else .ok (toString i ++ ". " ++ pyStr title ++ "\n")
    | none => .ok (toString i ++ ". " ++ pyStr title ++ "\n")
  | _ => .error ()

def mediaLines (i : Nat) : List Json → Except Unit String
  | [] => .ok ""
  | m :: rest => do
    let line ← mediaLine i m
    let restS ← mediaLines (i + 1) rest
    .ok (line ++ restS)

/-- The `context_refs` branch of `_extract_messages_from_response` once the
refs string parsed to a dict: build the "参考资料" text from the first five
`medias` entries and emit it when `medias` is truthy. -/
def buildRefs (ctx : Json) (rawS : String) : Except Unit (List Msg) := do
  let header := "\n\n📚 参考资料:\n"
  let refText ←
    match jgetKey ctx "medias" with
    | some (.arr l) => do
      let s ← mediaLines 1 (l.take 5)
      pure (header ++ s)
    | _ => pure header
  match jgetKey ctx "medias" with
  | some m => if m.truthy then pure [mkTextMsg refText rawS] else pure []
  | none => pure []

/-- Core of `_extract_messages_from_response`: only the last entry of the
top-level `msgs` list is considered, and only when it is a QA entry
(`type == 3`). `Except.error ()` is any exception inside the `try`, which
the source converts to a single fallback `system` message. -/
def extractCore (j : Json) : Except Unit (List Msg) :=
  match jgetKey j "msgs" with
  | some (.arr msgsList) =>
    if msgsList.isEmpty then .ok []
    else
      match msgsList.getLast? with
      | some lastMsg =>
        match lastMsg with
        | .obj _ =>
          match jgetKey lastMsg "type" with
          | some (.num 3) =>
            let qaContent := (jgetKey lastMsg "content").getD (.obj [])
            match qaContent with
            | .obj _ => do
              let part1 ←
                match jgetKey qaContent "answer" with
                | some (.str ans) =>
                  if ans = "" then pure ([] : List Msg)
                  else
                    match jparse ans with
                    | some (.obj kvs) =>
                      match jgetKey (Json.obj kvs) "Text" with
                      | some (.str t) => pure [mkTextMsg t (pyRepr lastMsg)]
                      | some _ => .error ()   -- non-string `Text`: ValidationError
                      | none => pure [mkTextMsg ans (pyRepr lastMsg)]
                    | some _ => pure [mkTextMsg ans (pyRepr lastMsg)]
                    | none => pure [mkTextMsg ans (pyRepr lastMsg)]
                | some _ => pure []   -- non-string answer fails the isinstance check
                | none => pure []
              let part2 ←
                match jgetKey qaContent "context_refs" with
                | none => pure ([] : List Msg)
                | some cr =>
                  if cr.truthy then
                    match cr with
                    | .str crs =>
                      match jparse crs with
                      | some (.obj ckvs) => buildRefs (Json.obj ckvs) (pyRepr lastMsg)
                      | some _ => pure []   -- parsed but not a dict: nothing appended
                      | none =>
                        pure [mkTextMsg ("\n\n📚 参考资料:\n" ++ crs) (pyRepr lastMsg)]
                    | _ => .error ()   -- json.loads on a non-string: TypeError
                  else pure []
              pure (part1 ++ part2)
            | _ => .ok []
          | _ => .ok []
        | _ => .ok []
      | none => .ok []
  | _ => .ok []

/-- `_extract_messages_from_response`: exceptions inside collapse to one
`system` message wrapping the whole response. -/
def extract_messages_from_response (j : Json) : List Msg :=
  match extractCore j with
  | .ok ms => ms
  | .error _ => [⟨.system, pyRepr j, some (pyRepr j), none⟩]

/-! ## `_process_sse_stream`

The model takes the decoded chunk sequence as input (UTF-8/GBK decoding
and the wall-clock idle-timeout break are not represented: the chunk list
is the data the loop actually consumed). `raised = true` marks an
exception escaping the generator. -/

structure StreamState where
  buffer : String
  fullResponse : String
  chunkCount : Nat
  parsedCount : Nat
  failedCount : Nat
  messages : List Msg
deriving Repr, DecidableEq

def initialStreamState : StreamState := ⟨"", "", 0, 0, 0, []⟩

/-- Per-line handling shared by the chunk loop and the trailing-buffer
flush: strip, skip empties, count a parser exception as one failed parse
and yield at most one message. -/
def streamLineStep (st : StreamState) (rawLine : String) : StreamState :=
  let line := pyStrip rawLine
  if line = "" then st
  else
    match parse_sse_message line with
    | .error _ => { st with failedCount := st.failedCount + 1 }
    | .ok none => st
    | .ok (some m) =>
      { st with parsedCount := st.parsedCount + 1, messages := st.messages ++ [m] }

/-- One iteration of `async for chunk in response.content`: empty chunks
are skipped, the chunk joins the line buffer and the full-response
accumulator, and every complete line is parsed. -/
def processChunk (st : StreamState) (chunk : String) : StreamState :=
  if chunk = "" then st
  else
    let buf := st.buffer ++ chunk
    let parts := splitOnChar '\n' buf
    let st := { st with
      chunkCount := st.chunkCount + 1,
      fullResponse := st.fullResponse ++ chunk,
      buffer := parts.getLastD "" }
    parts.dropLast.foldl streamLineStep st

/-- Trailing-buffer flush after the chunk loop. -/
def flushBuffer (st : StreamState) : StreamState :=
  if pyStrip st.buffer = "" then st
  else (splitOnChar '\n' (pyStrip st.buffer)).foldl streamLineStep st

/-- The line-by-line reparse inside the fallback's `JSONDecodeError`
handler. Unlike the chunk loop it calls the parser unprotected, so a
parse error propagates (second component `true`); a parsed-but-skipped
line counts as a failed parse here. -/
def reparseLines (st : StreamState) : List String → StreamState × Bool
  | [] => (st, false)
  | l :: rest =>
    let line := pyStrip l
    if line = "" then reparseLines st rest
    else if line = "[DONE]" then reparseLines st rest
    else
      match parse_sse_message line with
      | .error _ => (st, true)
      | .ok (some m) =>
        reparseLines
          { st with parsedCount := st.parsedCount + 1, messages := st.messages ++ [m] } rest
      | .ok none =>
        reparseLines { st with failedCount := st.failedCount + 1 } rest

/-- Whole-body fallback: when fewer than 100 chunks arrived (or none at
all), reparse the accumulated response as one JSON document, falling back
to the unprotected line-by-line reparse. -/
def fallbackReparse (st : StreamState) : StreamState × Bool :=
  if st.chunkCount < 100 || st.chunkCount = 0 then
    if pyStrip st.fullResponse = "" then (st, false)
    else
      match jparse (pyStrip st.fullResponse) with
      | some j =>
        ({ st with messages := st.messages ++ extract_messages_from_response j }, false)
      | none =>
        if st.fullResponse = "" then (st, false)
        else reparseLines st (splitOnChar '\n' st.fullResponse)
  else (st, false)

structure StreamResult where
  messages : List Msg
  chunkCount : Nat
  parsedCount : Nat
  failedCount : Nat
  raised : Bool
deriving Repr, DecidableEq

/-- `_process_sse_stream` end to end: chunk loop, trailing-buffer flush,
whole-body fallback. `messages` lists every yielded message in order. -/
def process_sse_stream (chunks : List String) : StreamResult :=
  let st := chunks.foldl processChunk initialStreamState
  let st := flushBuffer st
  let p := fallbackReparse st
  ⟨p.1.messages, p.1.chunkCount, p.1.parsedCount, p.1.failedCount, p.2⟩

/-! ## Token manager (`_is_token_expired`, cookie credential extraction,
`refresh_token`, `ensure_valid_token`) -/

/-- The mutable token/credential slice of `IMAConfig` that the client
touches. `tokenValidTime`/`tokenUpdatedAt` are `none` when unset. -/
structure TokenState where
  currentToken : Option String
  tokenValidTime : Option Int
  tokenUpdatedAt : Option Int
  userId : Option String
  refreshToken : Option String
deriving Repr, DecidableEq

/-- Python truthiness of an optional string field. -/
def optTruthy : Option String → Bool
  | none => false
  | some s => s != ""

/-- `_is_token_expired`: unset issue-time, and unset or zero validity
(`not token_valid_time` is true for `None` and `0`), count as expired;
otherwise expiry is the strict comparison `now > issued_at + valid`. -/
def is_token_expired (tokenUpdatedAt tokenValidTime : Option Int) (now : Int) : Bool :=
  match tokenUpdatedAt, tokenValidTime with
  | some t, some s => if s = 0 then true else decide (now > t + s)
  | _, _ => true

/-- `urllib.parse.unquote`, byte-wise: each `%XX` hex pair becomes the
character with that code (multi-byte UTF-8 sequences are decoded
code-unit-wise in this model; the claims never exercise them). -/
def unquoteChars : List Char → List Char
  | [] => []
  | '%' :: h1 :: h2 :: rest =>
    match hexVal h1, hexVal h2 with
    | some a, some b => Char.ofNat (16 * a + b) :: unquoteChars rest
    | _, _ => '%' :: unquoteChars (h1 :: h2 :: rest)
  | c :: rest => c :: unquoteChars rest

def pyUnquote (s : String) : String := String.mk (unquoteChars s.toList)

/-- `re.search(marker + r"([^;]+)", s)`: leftmost occurrence of `marker`
followed by a non-empty run of non-semicolon characters; the capture is
that maximal run. -/
def scanCaptureAux (marker : List Char) : List Char → Option (List Char)
  | [] => none
  | c :: rest =>
    if marker.isPrefixOf (c :: rest) then
      let after := (c :: rest).drop marker.length
      let captured := after.takeWhile (fun ch => ch ≠ ';')
      if captured.isEmpty then scanCaptureAux marker rest
      else some captured
    else scanCaptureAux marker rest

def scanCapture (marker s : String) : Option String :=
  (scanCaptureAux marker.toList s.toList).map String.mk

def isLowerHex (c : Char) : Bool :=
  ('0' ≤ c && c ≤ '9') || ('a' ≤ c && c ≤ 'f')

/-- `re.search(r"user_id=([a-f0-9]{16})", s)`: leftmost occurrence of
`user_id=` followed by at least 16 lowercase-hex characters; captures the
first 16. -/
def scanUserId16Aux : List Char → Option (List Char)
  | [] => none
  | c :: rest =>
    if ("user_id=".toList).isPrefixOf (c :: rest) then
      let after := (c :: rest).drop 8
      let hx := after.take 16
      if hx.length = 16 && hx.all isLowerHex then some hx
      else scanUserId16Aux rest
    else scanUserId16Aux rest

def scanUserId16 (s : String) : Option String :=
  (scanUserId16Aux s.toList).map String.mk

/-- `_parse_user_id_from_cookies`: `IMA-UID` from the secondary cookie
header, else the 16-hex `user_id` pattern from the raw cookie string. -/
def parse_user_id_from_cookies (xImaCookie : String) (cookies : Option String) :
    Option String :=
  match scanCapture "IMA-UID=" xImaCookie with
  | some uid => some uid
  | none =>
    match cookies with
    | some cs => if cs ≠ "" then scanUserId16 cs else none
    | none => none

/-- `_parse_refresh_token_from_cookies`: `IMA-REFRESH-TOKEN` from the
secondary cookie header, else `IMA-TOKEN` there, else `refresh_token`
from the raw cookie string; every hit is URL-decoded. -/
def parse_refresh_token_from_cookies (xImaCookie : String) (cookies : Option String) :
    Option String :=
  match scanCapture "IMA-REFRESH-TOKEN=" xImaCookie with
  | some t => some (pyUnquote t)
  | none =>
    match scanCapture "IMA-TOKEN=" xImaCookie with
    | some t => some (pyUnquote t)
    | none =>
      match cookies with
      | some cs =>
        if cs ≠ "" then (scanCapture "refresh_token=" cs).map pyUnquote else none
      | none => none

/-- Outcome of one HTTP exchange as the client sees it: an exception from
the connection/read, or a status code with a response body. -/
inductive HTTPResult where
  | exn : HTTPResult
  | resp (status : Nat) (body : String) : HTTPResult

/-- pydantic validation of `TokenRefreshResponse(**data)`: `code : int`
and `msg : str` are required; `token` and `token_valid_time` are optional
strings (numeric-string coercions are elided). Returns
`(code, token, token_valid_time)`. -/
def validateTokenRefreshResponse (j : Json) :
    Option (Int × Option String × Option String) :=
  match j with
  | .obj _ =>
    match jgetKey j "code", jgetKey j "msg" with
    | some (.num code), some (.str _) =>
      let tokOk : Option (Option String) :=
        match jgetKey j "token" with
        | none => some none
        | some .null => some none
        | some (.str t) => some (some t)
        | some _ => none
      let tvtOk : Option (Option String) :=
        match jgetKey j "token_valid_time" with
        | none => some none
        | some .null => some none
        | some (.str t) => some (some t)
        | some _ => none
      match tokOk, tvtOk with
      | some tok, some tvt => some (code, tok, tvt)
      | _, _ => none
    | _, _ => none
  | _ => none

/-- Python `int(s)` on a string: optional surrounding whitespace, an
optional sign, then digits (digit-group underscores elided). -/
def pythonInt (s : String) : Option Int :=
  let cs := (pyStrip s).toList
  let p := match cs with
    | '-' :: rest => (true, rest)
    | '+' :: rest => (false, rest)
    | _ => (false, cs)
  if p.2.isEmpty || !p.2.all Char.isDigit then none
  else some (if p.1 then -(digitsToNat p.2 : Int) else (digitsToNat p.2 : Int))

/-- Credential recovery at the top of `refresh_token`: when either direct
credential is falsy, both are overwritten with the cookie-derived values. -/
def recoverCreds (st : TokenState) (xImaCookie : String) (cookies : Option String) :
    TokenState :=
  if optTruthy st.userId && optTruthy st.refreshToken then st
  else { st with
    userId := parse_user_id_from_cookies xImaCookie cookies,
    refreshToken := parse_refresh_token_from_cookies xImaCookie cookies }

/-- Model of `refresh_token`. Totality renders "never raises"; the `Bool`
is its return value and the `TokenState` the config state it leaves
behind. The token fields are updated in the source's order: the current
token first, then the validity (via `int(...)`, which can fail), then the
issue time. -/
def refresh_token (st0 : TokenState) (xImaCookie : String) (cookies : Option String)
    (http : HTTPResult) (now : Int) : Bool × TokenState :=
  let st := recoverCreds st0 xImaCookie cookies
  if !(optTruthy st.userId && optTruthy st.refreshToken) then (false, st)
  else
    match http with
    | .exn => (false, st)
    | .resp status body =>
      if status ≠ 200 then (false, st)
      else
        match jparse body with
        | none => (false, st)
        | some j =>
          match validateTokenRefreshResponse j with
          | none => (false, st)
          | some (code, token, tvt) =>
            if code = 0 && optTruthy token then
              let st1 := { st with currentToken := token }
              let vtStr := match tvt with
                | some s => if s = "" then "7200" else s
                | none => "7200"
              match pythonInt vtStr with
              | none => (false, st1)
              | some v =>
                (true, { st1 with tokenValidTime := some v, tokenUpdatedAt := some now })
            else (false, st)

/-- Model of `ensure_valid_token`. The last component records whether a
refresh call was issued (`refresh_token` invoked — with truthy direct
credentials it always reaches the network). Cookie recovery is *not*
consulted here: only the direct config fields gate the refresh. -/
def ensure_valid_token (st : TokenState) (xImaCookie : String) (cookies : Option String)
    (http : HTTPResult) (now : Int) : Bool × TokenState × Bool :=
  if is_token_expired st.tokenUpdatedAt st.tokenValidTime now then
    if optTruthy st.refreshToken && optTruthy st.userId then
      let r := refresh_token st xImaCookie cookies http now
      (r.1, r.2, true)
    else (true, st, false)
  else (true, st, false)

/-! ## `_build_headers` (cookie-header token substitution) -/

/-- `needle in hay` on Python strings: some suffix of `hay` starts with
`needle`. -/
def containsSubstrAux (needle : List Char) : List Char → Bool
  | [] => needle.isEmpty
  | c :: rest => needle.isPrefixOf (c :: rest) || containsSubstrAux needle rest

def containsSubstr (hay needle : String) : Bool :=
  containsSubstrAux needle.toList hay.toList

def imaTokenMarker : List Char := "IMA-TOKEN=".toList

/-- `re.sub(r"IMA-TOKEN=[^;]+", f"IMA-TOKEN={tok}", s)`: replace every
non-overlapping leftmost match of the marker followed by a non-empty run
of non-semicolons. A marker with no value after it does not match. The
fuel is `length + 1`, enough since every step consumes a character. -/
def subIMATokenAux (tok : List Char) (fuel : Nat) (cs : List Char) : List Char :=
  match fuel with
  | 0 => cs
  | fuel + 1 =>
    match cs with
    | [] => []
    | c :: rest =>
      if imaTokenMarker.isPrefixOf (c :: rest) then
        let after := (c :: rest).drop imaTokenMarker.length
        let run := after.takeWhile (fun ch => ch ≠ ';')
        if run.isEmpty then c :: subIMATokenAux tok fuel rest
        else imaTokenMarker ++ tok ++ subIMATokenAux tok fuel (after.drop run.length)
      else c :: subIMATokenAux tok fuel rest

def subIMAToken (tok s : String) : String :=
  String.mk (subIMATokenAux tok.toList (s.length + 1) s.toList)

/-- The two claim-relevant headers `_build_headers` computes: the
secondary cookie header actually sent, and the optional bearer
authorization header. -/
structure HeadersModel where
  xImaCookie : String
  authorization : Option String
deriving Repr, DecidableEq

/-- Model of `_build_headers`: with a truthy current token, rewrite the
existing `IMA-TOKEN` value in the configured cookie header, appending a
fresh entry only when the substring `IMA-TOKEN=` is absent, and add the
bearer header; otherwise pass the header through untouched. -/
def build_headers (currentToken : Option String) (xImaCookie : String) : HeadersModel :=
  if optTruthy currentToken then
    let tok := currentToken.getD ""
    let newCookie := subIMAToken tok xImaCookie
    let cookie :=
      if newCookie = xImaCookie && !containsSubstr xImaCookie "IMA-TOKEN=" then
        xImaCookie ++ "; IMA-TOKEN=" ++ tok
      else newCookie
    ⟨cookie, some ("Bearer " ++ tok)⟩
  else ⟨xImaCookie, none⟩

/-! ## Retry orchestrator (`ask_question_complete`) -/

/-- What one run of the `ask_question` generator did: completed after
yielding `msgs`, or raised with message `err` after yielding
`partialMsgs`. -/
inductive AskOutcome where
  | success (msgs : List Msg) : AskOutcome
  | failure (partialMsgs : List Msg) (err : String) : AskOutcome

/-- The synthetic message `ask_question` yields when the stream produced
nothing. -/
def noValidResponseMsg : Msg :=
  ⟨.system, "未收到有效响应，但请求已成功发送", some "No valid SSE messages received", none⟩

/-- `ask_question`'s outer contract around a raw attempt outcome: an
empty/whitespace question raises before anything runs, and a completed
run that yielded nothing yields the synthetic system message instead. -/
def ask_question_outcome (question : String) (raw : AskOutcome) : AskOutcome :=
  if pyStrip question = "" then .failure [] "Question cannot be empty"
  else
    match raw with
    | .success [] => .success [noValidResponseMsg]
    | o => o

/-- `_is_login_expired_error`'s fixed substring list. -/
def login_expired_patterns : List String :=
  ["Session initialization failed", "登录过期", "登录失败", "authentication failed",
   "认证失败", "code: 600001", "code: 600002", "code: 600003", "token expired",
   "会话已过期", "请重新登录", "unauthorized", "401", "Expected SSE response"]

/-- `_is_login_expired_error`: case-insensitive substring match against
the fixed pattern list. -/
def is_login_expired_error (err : String) : Bool :=
  login_expired_patterns.any (fun p => containsSubstr (pyLower err) (pyLower p))

/-- The synthetic failure message appended on the final attempt
(`content = f"获取回答失败: {error_str}"`, `raw = str(e)`). -/
def syntheticFailureMessage (err : String) : Msg :=
  ⟨.system, "获取回答失败: " ++ err, some err, none⟩

def maxRetries : Nat := 2

/-- Everything observable about one `ask_question_complete` run: the
returned list, how many times `ask_question` was started, and how many
times `refresh_token` was called from the retry loop. -/
structure RetryTrace where
  messages : List Msg
  askAttempts : Nat
  refreshAttempts : Nat
deriving Repr, DecidableEq

/-- The `for attempt in range(max_retries + 1)` loop of
`ask_question_complete`, iteration by iteration. `atts attempt` is the
(wrapped) outcome of the attempt; `refresh k` the result of the `k`-th
in-loop `refresh_token` call. Mirrors the source's control flow: a
completed attempt with a non-empty accumulated list breaks; on an
auth-classified failure with retries remaining a refresh is tried —
success resets the accumulated list and retries, failure falls through to
the next iteration *keeping* the accumulated list; a non-auth failure
with retries remaining resets the list and retries after a delay; on the
final attempt a synthetic failure message is appended. -/
def askCompleteAux (atts : Nat → AskOutcome) (refresh : Nat → Bool) :
    Nat → Nat → List Msg → Nat → Nat → RetryTrace
  | _, 0, msgs, rc, asks => ⟨msgs, asks, rc⟩
  | attempt, iterLeft + 1, msgs, rc, asks =>
    match atts attempt with
    | .success ms =>
      let acc := msgs ++ ms
      if acc.isEmpty then askCompleteAux atts refresh (attempt + 1) iterLeft acc rc (asks + 1)
      else ⟨acc, asks + 1, rc⟩
    | .failure pm err =>
      let acc := msgs ++ pm
      if is_login_expired_error err then
        if attempt < maxRetries then
          if refresh rc then
            askCompleteAux atts refresh (attempt + 1) iterLeft [] (rc + 1) (asks + 1)
          else
            askCompleteAux atts refresh (attempt + 1) iterLeft
              (if attempt = maxRetries then acc ++ [syntheticFailureMessage err] else acc)
              (rc + 1) (asks + 1)
        else
          askCompleteAux atts refresh (attempt + 1) iterLeft
            (if attempt = maxRetries then acc ++ [syntheticFailureMessage err] else acc)
            rc (asks + 1)
      else
        if attempt < maxRetries then
          askCompleteAux atts refresh (attempt + 1) iterLeft [] rc (asks + 1)
        else
          askCompleteAux atts refresh (attempt + 1) iterLeft
            (if attempt = maxRetries then acc ++ [syntheticFailureMessage err] else acc)
            rc (asks + 1)

/-- Model of `ask_question_complete`: run up to `max_retries + 1 = 3`
attempts over the oracle outcomes. Totality renders "never raises". -/
def ask_question_complete (question : String) (raw : Nat → AskOutcome)
    (refresh : Nat → Bool) : RetryTrace :=
  askCompleteAux (fun i => ask_question_outcome question (raw i)) refresh
    0 (maxRetries + 1) [] 0 0

/-! ## Timeout constants (`_process_sse_stream`, `_get_session`) -/

/-- `no_data_timeout` (`_process_sse_stream`): idle threshold before any
data has arrived. -/
def no_data_timeout : Nat := 120

/-- `chunk_timeout` (`_process_sse_stream`): idle threshold once data has
been received. -/
def chunk_timeout : Nat := 60

/-- `timeout_threshold = chunk_timeout if has_received_data else
no_data_timeout`. -/
def timeoutThreshold (hasReceivedData : Bool) : Nat :=
  if hasReceivedData then chunk_timeout else no_data_timeout

/-- The `aiohttp.ClientTimeout` the client builds in `_get_session`. -/
structure ClientTimeoutCfg where
  total : Nat
  sockRead : Nat
  connect : Nat
  sockConnect : Nat
deriving Repr, DecidableEq

/-- `ClientTimeout(total=min(config.timeout, 120), sock_read=90,
connect=30, sock_connect=30)`. -/
def sessionTimeoutCfg (configTimeout : Nat) : ClientTimeoutCfg :=
  ⟨min configTimeout 120, 90, 30, 30⟩

/-! ## Concrete fixtures used by the theorems -/

/-- The SSE line `data: {"content": "hello"}`. -/
def helloLine : String := "data: \x7b\"content\": \"hello\"\x7d"

def helloData : String := "\x7b\"content\": \"hello\"\x7d"

/-- A response body that is one JSON document
`{"msgs":[{"type":3,"content":{"answer":"{\"Text\":\"final\"}"}}]}`
with no SSE framing. -/
def c5Body : String :=
  "\x7b\"msgs\":[\x7b\"type\":3,\"content\":\x7b\"answer\":\"\x7b\\\"Text\\\":\\\"final\\\"\x7d\"\x7d\x7d]\x7d"

/-- A fully populated token state. -/
def c6State : TokenState := ⟨some "old", some 100, some 50, some "u", some "r"⟩

/-- Refresh body: HTTP-level success with `code 0` and a token, but a
non-numeric validity string. -/
def c6BadBody : String :=
  "\x7b\"code\":0,\"msg\":\"ok\",\"token\":\"newtok\",\"token_valid_time\":\"abc\"\x7d"

/-- Refresh body: success with the validity field omitted. -/
def c6OkBody : String := "\x7b\"code\":0,\"msg\":\"ok\",\"token\":\"t2\"\x7d"

/-- A secondary cookie header from which both refresh credentials are
recoverable. -/
def c8Cookie : String := "IMA-UID=u123; IMA-REFRESH-TOKEN=rtok"

/-- A token state with nothing set: expired, no direct credentials. -/
def emptyTokenState : TokenState := ⟨none, none, none, none, none⟩

/-! ## Helper lemmas -/

theorem subIMATokenAux_id (tok : List Char) :
    ∀ (fuel : Nat) (cs : List Char), containsSubstrAux imaTokenMarker cs = false →
      subIMATokenAux tok fuel cs = cs := by
  intro fuel
  induction fuel with
  | zero => intro cs _; rfl
  | succ n ih =>
    intro cs hcs
    cases cs with
    | nil => rfl
    | cons c rest =>
      rw [containsSubstrAux, Bool.or_eq_false_iff] at hcs
      rw [subIMATokenAux, if_neg (by simp [hcs.1]), ih rest hcs.2]

theorem subIMAToken_id (tok s : String) (h : containsSubstr s "IMA-TOKEN=" = false) :
    subIMAToken tok s = s := by
  unfold subIMAToken
  rw [subIMATokenAux_id tok.toList (s.length + 1) s.toList (by exact h)]
  rfl

/-! ## Claims C3 and C9: token expiry boundary, timeout constants -/

/-- C3 (counterexample): with issued-at `T = 0` and validity `S = 10`, at
the boundary instant `now = T + S = 10` the code reports *not* expired
(`datetime.now() > expired_time` is strict), contradicting the claim that
every `now ≥ T + S` is expired. -/
theorem c3_counterexample : is_token_expired (some 0) (some 10) 10 = false := rfl

/-- C3 (amended): with issued-at `T` and a non-zero validity `S` both set,
`_is_token_expired` reports not-expired exactly for current times
`≤ T + S` and expired for every current time `> T + S`; when the
issued-at is unset, or the validity is unset or zero (Python truthiness
lumps `0` with unset), it reports expired. -/
theorem c3_token_expiry_boundary (t s now : Int) (hs : s ≠ 0) :
    (is_token_expired (some t) (some s) now = false ↔ now ≤ t + s) ∧
    is_token_expired (some t) (some 0) now = true ∧
    is_token_expired none (some s) now = true ∧
    is_token_expired (some t) none now = true ∧
    is_token_expired none none now = true := by
  refine ⟨?_, by simp [is_token_expired], rfl, rfl, rfl⟩
  simp [is_token_expired, hs]

/-- C3 (witness): the amended statement evaluated at `T = 0`, `S = 10`,
`now = 10`. -/
theorem c3_witness :
    (is_token_expired (some 0) (some 10) 10 = false ↔ (10 : Int) ≤ 0 + 10) ∧
    is_token_expired (some 0) (some 0) 10 = true ∧
    is_token_expired none (some 10) 10 = true ∧
    is_token_expired (some 0) none 10 = true ∧
    is_token_expired none none 10 = true :=
  c3_token_expiry_boundary 0 10 10 (by decide)

/-- C9 (counterexample): the code's idle thresholds are 120 s before any
data and 60 s once streaming started, and the socket timeouts are
`min(config, 120)` total / 90 read / 30 connect — none of the claimed
≈180 s initial, ≈120 s stall, ≈300 s total, 180 s read figures. -/
theorem c9_counterexample :
    timeoutThreshold false = 120 ∧ timeoutThreshold true = 60 ∧
    sessionTimeoutCfg 300 = ⟨120, 90, 30, 30⟩ ∧
    timeoutThreshold false ≠ 180 ∧ timeoutThreshold true ≠ 120 ∧
    (sessionTimeoutCfg 300).total ≠ 300 ∧ (sessionTimeoutCfg 300).sockRead ≠ 180 := by
  decide

/-- C9 (amended): the streaming idle threshold is `no_data_timeout = 120`
seconds before any data has arrived and `chunk_timeout = 60` seconds once
streaming has started, and the HTTP client's socket timeouts are
`total = min(config.timeout, 120)`, `sock_read = 90`,
`connect = sock_connect = 30` seconds. -/
theorem c9_timeout_constants (t : Nat) :
    timeoutThreshold false = no_data_timeout ∧ no_data_timeout = 120 ∧
    timeoutThreshold true = chunk_timeout ∧ chunk_timeout = 60 ∧
    sessionTimeoutCfg t = ⟨min t 120, 90, 30, 30⟩ :=
  ⟨rfl, rfl, rfl, rfl, rfl⟩

/-! ## Claim C10: cookie-header token substitution -/

/-- C10 (counterexample): with current token `"tok"` held and the
configured cookie header `"IMA-TOKEN="` (an empty-valued entry), the
header is sent unchanged — the regex needs a non-empty value and the
append is skipped because the substring `IMA-TOKEN=` is present — so the
outgoing cookie does not carry an `IMA-TOKEN` entry equal to the current
token. -/
theorem c10_counterexample :
    build_headers (some "tok") "IMA-TOKEN=" = ⟨"IMA-TOKEN=", some "Bearer tok"⟩ ∧
    containsSubstr "IMA-TOKEN=" "IMA-TOKEN=tok" = false := by
  exact ⟨rfl, rfl⟩

/-- C10 (amended): with a truthy current token, `_build_headers` rewrites
every `IMA-TOKEN` entry that has a non-empty value, appends a fresh entry
only when the substring `IMA-TOKEN=` is absent altogether, and adds the
bearer authorization header; an empty-valued `IMA-TOKEN=` entry is left
as it is (the token then travels only in the authorization header). With
no current token (or an empty one) the configured header is sent
unchanged and no authorization header is added. -/
theorem c10_build_headers_token :
    (∀ xima : String, build_headers none xima = ⟨xima, none⟩ ∧
       build_headers (some "") xima = ⟨xima, none⟩) ∧
    (∀ tok xima : String, tok ≠ "" → containsSubstr xima "IMA-TOKEN=" = false →
       build_headers (some tok) xima
         = ⟨xima ++ "; IMA-TOKEN=" ++ tok, some ("Bearer " ++ tok)⟩) ∧
    build_headers (some "new") "A=1; IMA-TOKEN=old; B=2"
      = ⟨"A=1; IMA-TOKEN=new; B=2", some "Bearer new"⟩ ∧
    build_headers (some "tok2") "B=1; IMA-TOKEN="
      = ⟨"B=1; IMA-TOKEN=", some "Bearer tok2"⟩ := by
  refine ⟨fun xima => ⟨rfl, rfl⟩, fun tok xima htok hsub => ?_, rfl, rfl⟩
  have htr : optTruthy (some tok) = true := by
    simp [optTruthy, htok]
  unfold build_headers
  rw [if_pos htr]
  simp only [Option.getD, subIMAToken_id tok xima hsub, hsub]
  simp

/-- C10 (witness): the append case of the amended statement evaluated at
token `"new"` and cookie header `"A=1; B=2"`. -/
theorem c10_witness :
    build_headers (some "new") "A=1; B=2"
      = ⟨"A=1; B=2; IMA-TOKEN=new", some "Bearer new"⟩ :=
  c10_build_headers_token.2.1 "new" "A=1; B=2" (by decide) (by decide)

/-! ## Claims C4 and C5: SSE line parsing, whole-body fallback -/

/-- C4 (counterexample): for the single-chunk stream `["data: garbage\n"]`
the generator raises — the malformed line is counted (not fatal) inside
the chunk loop, but the whole-body fallback then reparses the body
line-by-line inside the `JSONDecodeError` handler with no protection, and
the parser's re-raised exception escapes the stream. This contradicts the
claim that a malformed line never raises out of the stream. -/
theorem c4_counterexample :
    (process_sse_stream ["data: garbage\n"]).raised = true := rfl

/-- C4 (amended): the line parser turns `data: {"content": "hello"}` into
exactly one text message with content `"hello"`; `data: [DONE]`, blank
data and `event:`/`id:` control lines produce no message; in the chunk
loop a line whose data is malformed JSON increments the failed-parse
counter and yields nothing. However, the stream generator as a whole can
still raise on malformed data: when the whole-body fallback runs (fewer
than 100 chunks) and the accumulated body is not valid JSON, its
line-by-line reparse calls the parser unprotected and a malformed line
raises out of the generator. -/
theorem c4_sse_line_parsing :
    parse_sse_message helloLine = .ok (some (mkTextMsg "hello" helloData)) ∧
    parse_sse_message "data: [DONE]" = .ok none ∧
    parse_sse_message "data: " = .ok none ∧
    parse_sse_message "event: done" = .ok none ∧
    parse_sse_message "id: 1" = .ok none ∧
    (∀ (st : StreamState) (line : String), pyStrip line ≠ "" →
       parse_sse_message (pyStrip line) = .error () →
       streamLineStep st line = { st with failedCount := st.failedCount + 1 }) ∧
    (process_sse_stream ["data: garbage\n"]).raised = true := by
  refine ⟨rfl, rfl, rfl, rfl, rfl, ?_, rfl⟩
  intro st line h1 h2
  simp only [streamLineStep, h2, if_neg h1]

/-- C4 (witness): the failed-parse accounting of the amended statement
evaluated on the line `data: garbage` from the initial stream state. -/
theorem c4_witness :
    streamLineStep initialStreamState "data: garbage"
      = { initialStreamState with failedCount := initialStreamState.failedCount + 1 } :=
  c4_sse_line_parsing.2.2.2.2.2.1 initialStreamState "data: garbage" (by decide) rfl

/-- C5: for a response body that is one JSON document whose `msgs` list
ends with a type-3 entry whose `content.answer` is the JSON-encoded
string with nested `Text` field `"final"`, with no `context_refs` and no
SSE framing, the stream engine yields exactly one text message with
content `"final"` and does not raise: the trailing-buffer flush rejects
the document (its `msgs` entry has a dict-valued `content`, a pydantic
validation failure counted as a failed parse) and the whole-body fallback
reparse extracts the last QA entry's answer, decoding the nested `Text`. -/
theorem c5_fallback_extracts_final :
    (process_sse_stream [c5Body]).messages.map (fun m => (m.type, m.content))
      = [(.text, "final")] ∧
    (process_sse_stream [c5Body]).raised = false :=
  ⟨rfl, rfl⟩

/-! ## Claim C6: refresh_token mutation discipline -/

theorem recoverCreds_preserves (st : TokenState) (xc : String) (cookies : Option String) :
    (recoverCreds st xc cookies).currentToken = st.currentToken ∧
    (recoverCreds st xc cookies).tokenValidTime = st.tokenValidTime ∧
    (recoverCreds st xc cookies).tokenUpdatedAt = st.tokenUpdatedAt := by
  unfold recoverCreds
  split <;> simp

theorem refresh_token_disj (st0 : TokenState) (xc : String) (cookies : Option String)
    (http : HTTPResult) (now : Int) :
    ((refresh_token st0 xc cookies http now).1 = true ∧
      (refresh_token st0 xc cookies http now).2.tokenUpdatedAt = some now) ∨
    ((refresh_token st0 xc cookies http now).1 = false ∧
      (refresh_token st0 xc cookies http now).2.tokenValidTime = st0.tokenValidTime ∧
      (refresh_token st0 xc cookies http now).2.tokenUpdatedAt = st0.tokenUpdatedAt) := by
  have hp := recoverCreds_preserves st0 xc cookies
  unfold refresh_token
  dsimp only
  repeat
    first
    | exact Or.inr ⟨rfl, hp.2.1, hp.2.2⟩
    | exact Or.inl ⟨rfl, rfl⟩
    | split

/-- C6 (counterexample): an HTTP-200 refresh response with `code 0`, a
token, but a non-numeric `token_valid_time` string makes `int(...)`
raise; `refresh_token` returns `false`, yet the current token was already
overwritten — contradicting the claim that every non-success outcome
leaves all three token fields unchanged. -/
theorem c6_counterexample :
    refresh_token c6State "X" none (.resp 200 c6BadBody) 999
      = (false, ⟨some "newtok", some 100, some 50, some "u", some "r"⟩) ∧
    (refresh_token c6State "X" none (.resp 200 c6BadBody) 999).2.currentToken
      ≠ c6State.currentToken := by
  exact ⟨rfl, by decide⟩

/-- C6 (amended): `refresh_token` never raises (totality of the model);
the validity duration and issued-at timestamp are mutated only by a
successful refresh, and a success sets issued-at to the refresh instant
with the validity defaulting to 7200 s when the server omits it. The
current token, however, is assigned as soon as the response is HTTP 200
with code 0 and a non-empty token — before the validity string is
converted — so a response whose `token_valid_time` is a non-numeric
string makes `refresh_token` return false with the current token already
overwritten and the other two fields unchanged. -/
theorem c6_refresh_token_mutation :
    (∀ (st0 : TokenState) (xc : String) (cookies : Option String)
       (http : HTTPResult) (now : Int),
       (refresh_token st0 xc cookies http now).1 = false →
         (refresh_token st0 xc cookies http now).2.tokenValidTime = st0.tokenValidTime ∧
         (refresh_token st0 xc cookies http now).2.tokenUpdatedAt = st0.tokenUpdatedAt) ∧
    (∀ (st0 : TokenState) (xc : String) (cookies : Option String)
       (http : HTTPResult) (now : Int),
       (refresh_token st0 xc cookies http now).1 = true →
         (refresh_token st0 xc cookies http now).2.tokenUpdatedAt = some now) ∧
    refresh_token c6State "X" none (.resp 200 c6OkBody) 777
      = (true, ⟨some "t2", some 7200, some 777, some "u", some "r"⟩) ∧
    refresh_token c6State "X" none (.resp 200 c6BadBody) 999
      = (false, ⟨some "newtok", some 100, some 50, some "u", some "r"⟩) := by
  refine ⟨?_, ?_, rfl, rfl⟩
  · intro st0 xc cookies http now hf
    rcases refresh_token_disj st0 xc cookies http now with ⟨h1, _⟩ | ⟨_, h2, h3⟩
    · rw [hf] at h1; cases h1
    · exact ⟨h2, h3⟩
  · intro st0 xc cookies http now ht
    rcases refresh_token_disj st0 xc cookies http now with ⟨_, h2⟩ | ⟨h1, _⟩
    · exact h2
    · rw [ht] at h1; cases h1

/-- C6 (witness): the failure-preservation and success-update parts of the
amended statement, evaluated on a connection exception and on the
omitted-validity success body. -/
theorem c6_witness :
    ((refresh_token c6State "X" none .exn 0).2.tokenValidTime = c6State.tokenValidTime ∧
     (refresh_token c6State "X" none .exn 0).2.tokenUpdatedAt = c6State.tokenUpdatedAt) ∧
    (refresh_token c6State "X" none (.resp 200 c6OkBody) 777).2.tokenUpdatedAt = some 777 :=
  ⟨c6_refresh_token_mutation.1 c6State "X" none .exn 0 rfl,
   c6_refresh_token_mutation.2.1 c6State "X" none (.resp 200 c6OkBody) 777 rfl⟩

/-! ## Claim C8: when ensure_valid_token refreshes -/

/-- C8 (counterexample): with the token expired and both refresh
credentials recoverable from the secondary cookie header (but not set
directly in the config), `ensure_valid_token` returns true without
issuing any refresh call — contradicting the claim that recoverable
cookie credentials trigger a refresh. -/
theorem c8_counterexample :
    is_token_expired emptyTokenState.tokenUpdatedAt emptyTokenState.tokenValidTime 0 = true ∧
    parse_user_id_from_cookies c8Cookie none = some "u123" ∧
    parse_refresh_token_from_cookies c8Cookie none = some "rtok" ∧
    ensure_valid_token emptyTokenState c8Cookie none .exn 0
      = (true, emptyTokenState, false) :=
  ⟨rfl, rfl, rfl, rfl⟩

/-- C8 (amended): `ensure_valid_token` issues a refresh call exactly when
the token is expired and both `refresh_token` and `user_id` are set
(non-empty) directly in the config; cookie-header recovery is consulted
only inside `refresh_token` itself. Whenever the token is expired and
either direct credential is missing or empty, it returns true without any
network call — even when credentials would be recoverable from cookies. -/
theorem c8_ensure_valid_token_refresh (st : TokenState) (xc : String)
    (cookies : Option String) (http : HTTPResult) (now : Int) :
    ((ensure_valid_token st xc cookies http now).2.2 = true ↔
      is_token_expired st.tokenUpdatedAt st.tokenValidTime now = true ∧
      (optTruthy st.refreshToken && optTruthy st.userId) = true) ∧
    (is_token_expired st.tokenUpdatedAt st.tokenValidTime now = true →
     (optTruthy st.refreshToken && optTruthy st.userId) = false →
     ensure_valid_token st xc cookies http now = (true, st, false)) := by
  unfold ensure_valid_token
  split_ifs with h1 h2
  · exact ⟨by simp [h1, h2], fun _ hc => by rw [h2] at hc; cases hc⟩
  · exact ⟨by simp [h2], fun _ _ => rfl⟩
  · exact ⟨by simp [h1], fun he _ => absurd he h1⟩

/-- C8 (witness): the no-refresh half of the amended statement evaluated
on the expired, credential-less state with a credential-bearing cookie
header. -/
theorem c8_witness :
    ensure_valid_token emptyTokenState c8Cookie none .exn 0
      = (true, emptyTokenState, false) :=
  (c8_ensure_valid_token_refresh emptyTokenState c8Cookie none .exn 0).2 rfl rfl

/-! ## Claims C1, C2, C7: the retry orchestrator -/

theorem ask_question_outcome_success_ne_nil (q : String) (raw : AskOutcome)
    (ms : List Msg) (h : ask_question_outcome q raw = .success ms) : ms ≠ [] := by
  unfold ask_question_outcome at h
  by_cases hq : pyStrip q = ""
  · rw [if_pos hq] at h; cases h
  · rw [if_neg hq] at h
    cases raw with
    | success ms2 =>
      cases ms2 with
      | nil => cases h; simp
      | cons a l => cases h; simp
    | failure pm e => cases h

/-- Invariant of the retry loop: provided every completed attempt yields at
least one message (which `ask_question`'s tail fallback guarantees), the
loop never returns an empty list. `iterLeft` counts the remaining loop
iterations (`attempt + iterLeft = max_retries + 1`). -/
theorem askCompleteAux_messages_ne_nil (atts : Nat → AskOutcome) (refresh : Nat → Bool)
    (hs : ∀ i ms, atts i = .success ms → ms ≠ []) :
    ∀ (iterLeft attempt : Nat) (msgs : List Msg) (rc asks : Nat),
      attempt + iterLeft = maxRetries + 1 → (iterLeft = 0 → msgs ≠ []) →
      (askCompleteAux atts refresh attempt iterLeft msgs rc asks).messages ≠ [] := by
  intro iterLeft
  induction iterLeft with
  | zero =>
    intro attempt msgs rc asks _ hmsgs
    simp only [askCompleteAux]
    exact hmsgs rfl
  | succ n ih =>
    intro attempt msgs rc asks hsum _
    rcases Nat.eq_zero_or_pos n with hn | hn
    · subst hn
      have ha : attempt = 2 := by simp only [maxRetries] at hsum; omega
      subst ha
      cases hatt : atts 2 with
      | success ms =>
        have hne := hs 2 ms hatt
        simp only [askCompleteAux, hatt]
        split
        · next hemp =>
          exact absurd (List.append_eq_nil.mp (by simpa using hemp)).2 hne
        · next hemp =>
          simp only [askCompleteAux]
          intro hcon
          exact hne (List.append_eq_nil.mp hcon).2
      | failure pm err =>
        simp only [askCompleteAux, hatt, maxRetries]
        simp only [show ¬(2 < 2) by omega, if_false, if_pos rfl]
        split
        · simp [askCompleteAux]
        · simp [askCompleteAux]
    · have ha : attempt < 2 := by simp only [maxRetries] at hsum; omega
      cases hatt : atts attempt with
      | success ms =>
        have hne := hs attempt ms hatt
        simp only [askCompleteAux, hatt]
        split
        · next hemp =>
          exact ih (attempt + 1) (msgs ++ ms) rc (asks + 1)
            (by simp only [maxRetries] at hsum ⊢; omega)
            (fun h0 => absurd h0 (by omega))
        · next hemp =>
          intro hcon
          exact hne (List.append_eq_nil.mp hcon).2
      | failure pm err =>
        simp only [askCompleteAux, hatt]
        have hlt : attempt < maxRetries := by simp only [maxRetries]; omega
        have hne2 : ¬(attempt = maxRetries) := by simp only [maxRetries]; omega
        simp only [if_pos hlt, if_neg hne2]
        split_ifs with h1 h2
        · exact ih (attempt + 1) [] (rc + 1) (asks + 1)
            (by simp only [maxRetries] at hsum ⊢; omega)
            (fun h0 => absurd h0 (by omega))
        · exact ih (attempt + 1) (msgs ++ pm) (rc + 1) (asks + 1)
            (by simp only [maxRetries] at hsum ⊢; omega)
            (fun h0 => absurd h0 (by omega))
        · exact ih (attempt + 1) [] rc (asks + 1)
            (by simp only [maxRetries] at hsum ⊢; omega)
            (fun h0 => absurd h0 (by omega))

/-- When every attempt raises without yielding anything, the loop runs to
the last attempt and returns exactly the one synthetic failure message
appended there. -/
theorem askCompleteAux_all_fail (atts : Nat → AskOutcome) (refresh : Nat → Bool)
    (h : ∀ i, ∃ e, atts i = .failure [] e) :
    ∀ (iterLeft attempt rc asks : Nat), attempt + iterLeft = maxRetries + 1 →
      1 ≤ iterLeft →
      ∃ e, (askCompleteAux atts refresh attempt iterLeft [] rc asks).messages
        = [syntheticFailureMessage e] := by
  intro iterLeft
  induction iterLeft with
  | zero => intro attempt rc asks _ h1; omega
  | succ n ih =>
    intro attempt rc asks hsum _
    obtain ⟨e, he⟩ := h attempt
    rcases Nat.eq_zero_or_pos n with hn | hn
    · subst hn
      have ha : attempt = 2 := by simp only [maxRetries] at hsum; omega
      subst ha
      refine ⟨e, ?_⟩
      simp only [askCompleteAux, he, maxRetries]
      simp only [show ¬(2 < 2) by omega, if_false, if_pos rfl]
      split <;> simp [askCompleteAux]
    · have ha : attempt < 2 := by simp only [maxRetries] at hsum; omega
      simp only [askCompleteAux, he]
      have hlt : attempt < maxRetries := by simp only [maxRetries]; omega
      have hne2 : ¬(attempt = maxRetries) := by simp only [maxRetries]; omega
      simp only [if_pos hlt, if_neg hne2, List.append_nil, List.nil_append]
      split_ifs with h1 h2
      · exact ih (attempt + 1) (rc + 1) (asks + 1)
          (by simp only [maxRetries] at hsum ⊢; omega) (by omega)
      · exact ih (attempt + 1) (rc + 1) (asks + 1)
          (by simp only [maxRetries] at hsum ⊢; omega) (by omega)
      · exact ih (attempt + 1) rc (asks + 1)
          (by simp only [maxRetries] at hsum ⊢; omega) (by omega)

/-- C2: for every question string (empty or whitespace-only included) and
every pattern of attempt outcomes, `ask_question_complete` never raises
(totality of the model) and returns at least one message; when every
attempt fails without producing any message, the returned list is exactly
one synthetic system message reporting the failure. -/
theorem c2_ask_complete_contract (q : String) (raw : Nat → AskOutcome)
    (refresh : Nat → Bool) :
    (ask_question_complete q raw refresh).messages ≠ [] ∧
    ((∀ i, ∃ e, raw i = .failure [] e) →
      ∃ e, (ask_question_complete q raw refresh).messages = [syntheticFailureMessage e]) := by
  constructor
  · unfold ask_question_complete
    exact askCompleteAux_messages_ne_nil _ refresh
      (fun i ms h => ask_question_outcome_success_ne_nil q (raw i) ms h)
      (maxRetries + 1) 0 [] 0 0 (by simp) (by simp [maxRetries])
  · intro hall
    unfold ask_question_complete
    apply askCompleteAux_all_fail _ refresh ?_ (maxRetries + 1) 0 0 0 (by simp)
      (by simp [maxRetries])
    intro i
    obtain ⟨e, he⟩ := hall i
    unfold ask_question_outcome
    by_cases hq : pyStrip q = ""
    · exact ⟨"Question cannot be empty", by rw [if_pos hq]⟩
    · exact ⟨e, by rw [if_neg hq, he]⟩

/-- C2 (witness): the contract evaluated on the always-failing oracle. -/
theorem c2_witness :
    (ask_question_complete "x" (fun _ => .failure [] "boom") (fun _ => false)).messages ≠ [] ∧
    ∃ e, (ask_question_complete "x" (fun _ => .failure [] "boom") (fun _ => false)).messages
      = [syntheticFailureMessage e] :=
  ⟨(c2_ask_complete_contract "x" (fun _ => .failure [] "boom") (fun _ => false)).1,
   (c2_ask_complete_contract "x" (fun _ => .failure [] "boom") (fun _ => false)).2
     (fun _ => ⟨"boom", rfl⟩)⟩

/-- C1 (counterexample): for the attempt outcomes
[auth-error, auth-error, auth-error] with the first refresh succeeding and
the second failing — the claim's `[auth-error, auth-error-but-refresh-fails]`
scenario — the orchestrator does *not* stop after the failed refresh: it
makes a third ask attempt and a second refresh attempt (the loop has no
break on refresh failure and falls through to the next iteration),
returning the single synthetic failure message. -/
theorem c1_counterexample :
    (ask_question_complete "hello" (fun _ => .failure [] "401")
        (fun i => decide (i = 0))).askAttempts = 3 ∧
    (ask_question_complete "hello" (fun _ => .failure [] "401")
        (fun i => decide (i = 0))).refreshAttempts = 2 ∧
    (ask_question_complete "hello" (fun _ => .failure [] "401")
        (fun i => decide (i = 0))).messages = [syntheticFailureMessage "401"] :=
  ⟨rfl, rfl, rfl⟩

/-- C1 (amended): when an attempt fails with an auth-classified error and
the subsequent token refresh fails, the orchestrator does *not* stop: it
falls through to the next iteration (keeping the accumulated messages)
and consumes the remaining attempts. For a non-blank question whose every
attempt fails with the same auth-classified error, with the first refresh
succeeding and the second failing, it makes all three ask attempts and
two refresh attempts and returns the single synthetic failure message. -/
theorem c1_refresh_failure_burns_attempts (q : String) (hq : pyStrip q ≠ "")
    (err : String) (hauth : is_login_expired_error err = true)
    (refresh : Nat → Bool) (h0 : refresh 0 = true) (h1 : refresh 1 = false) :
    ask_question_complete q (fun _ => .failure [] err) refresh
      = ⟨[syntheticFailureMessage err], 3, 2⟩ := by
  unfold ask_question_complete
  simp only [askCompleteAux, ask_question_outcome, if_neg hq, hauth, maxRetries,
    h0, h1, List.append_nil, List.nil_append]
  norm_num

/-- C1 (witness): the amended statement evaluated at question `"q"`, error
`"unauthorized"`, and the refresh oracle succeeding once then failing. -/
theorem c1_witness :
    ask_question_complete "q" (fun _ => .failure [] "unauthorized")
        (fun i => decide (i = 0))
      = ⟨[syntheticFailureMessage "unauthorized"], 3, 2⟩ :=
  c1_refresh_failure_burns_attempts "q" (by decide) "unauthorized" (by decide)
    (fun i => decide (i = 0)) rfl rfl

/-- C7 (counterexample): an attempt that yields one message and then fails
with a non-auth error does not short-circuit the retries: the orchestrator
resets the accumulated list, makes a second attempt, and returns that
attempt's messages — the partial message is discarded, contradicting the
claim that partial messages are returned as-is with no further attempt. -/
theorem c7_counterexample :
    ask_question_complete "q"
        (fun i => if i = 0 then .failure [mkTextMsg "part" "r"] "boom"
                  else .success [mkTextMsg "full" "r"])
        (fun _ => false)
      = ⟨[mkTextMsg "full" "r"], 2, 0⟩ ∧
    mkTextMsg "full" "r" ≠ mkTextMsg "part" "r" :=
  ⟨rfl, by decide⟩

/-- C7 (amended): partial messages yielded before a failure do not
short-circuit retries — on the retry paths the accumulated list is reset
to empty, so for a first attempt that yields any partial messages and then
raises a non-auth-classified error followed by a completed second attempt,
the orchestrator makes the second attempt and returns exactly its
messages, discarding the partials. (Only a *completed* attempt with a
non-empty accumulated list stops the loop; partials survive solely the
refresh-failure fall-through, reaching the result only on the final
attempt together with the synthetic failure message.) -/
theorem c7_partial_messages_discarded (q : String) (hq : pyStrip q ≠ "")
    (pm ms : List Msg) (err : String) (hna : is_login_expired_error err = false)
    (hms : ms ≠ []) (refresh : Nat → Bool) :
    ask_question_complete q
        (fun i => if i = 0 then .failure pm err else .success ms) refresh
      = ⟨ms, 2, 0⟩ := by
  obtain ⟨a, l, rfl⟩ : ∃ a l, ms = a :: l := by
    cases ms with
    | nil => exact absurd rfl hms
    | cons a l => exact ⟨a, l, rfl⟩
  unfold ask_question_complete
  simp only [askCompleteAux, ask_question_outcome, if_neg hq, hna, maxRetries,
    List.append_nil, List.nil_append]
  norm_num
  intro hcon
  rw [hna] at hcon
  cases hcon

/-- C7 (witness): the amended statement evaluated on a one-message partial
first attempt and a one-message completed second attempt. -/
theorem c7_witness :
    ask_question_complete "q"
        (fun i => if i = 0 then .failure [mkTextMsg "p" "r"] "oops"
                  else .success [mkTextMsg "m" "r"])
        (fun _ => true)
      = ⟨[mkTextMsg "m" "r"], 2, 0⟩ :=
  c7_partial_messages_discarded "q" (by decide) [mkTextMsg "p" "r"] [mkTextMsg "m" "r"]
    "oops" (by decide) (by simp) (fun _ => true)
